import Mathlib

/-!
Verification of the clawdbot gateway test-helper mocks
(`src/gateway/test-helpers.mocks.ts`) and of the Node Bridge Server /
Embedded Run Lifecycle contracts they stand in for.

The repository's visible code is mock scaffolding: the config-loader mocks
(`parseConfigJson5`, `validateConfigObject`, `readConfigFileSnapshot`,
`writeConfigFile`) and the embedded-run mock (`embeddedRunMock` with
`isEmbeddedPiRunActive` / `abortEmbeddedPiRun` / `waitForEmbeddedPiRunEnd`)
are embedded here directly from that file.  The real bridge server
(`src/infra/bridge/server.js`) and the real embedded-run lifecycle
(`src/agents/pi-embedded.js`) are not part of the visible sources — only
their mocks are — so those parts are modelled from the specification and
marked `Modelled from the spec:` on each definition.

JavaScript collaborators that are external to the repository
(`JSON.parse`, `JSON.stringify`, sha-256 hashing, the filesystem) are
abstracted as parameters; everything the repository's own code does with
them is embedded faithfully.
-/

namespace Clawdbot

/-! ## Config mocks (embedded from `vi.mock("../config/config.js", ...)`) -/

/-- An issue entry `{ path, message }` as produced by the config snapshot code. -/
structure ConfigIssue where
  path : String
  message : String
deriving Repr, DecidableEq

/-- Result of `parseConfigJson5`: `{ ok: true, parsed }` or `{ ok: false, error }`. -/
inductive ParseConfigResult (Value : Type) where
  | ok (parsed : Value)
  | err (error : String)
deriving Repr, DecidableEq

/-- Embedded from `parseConfigJson5` (test-helpers.mocks.ts lines 321-327):
`try { return { ok: true, parsed: JSON.parse(raw) } } catch (err) { return { ok: false, error: String(err) } }`.
`JSON.parse` is external to the repository and is abstracted as `jsonParse`,
which either returns a parsed value or the textual description of the
exception it would throw. -/
def parseConfigJson5 {Value : Type} (jsonParse : String → Except String Value)
    (raw : String) : ParseConfigResult Value :=
  match jsonParse raw with
  | .ok v => .ok v
  | .error e => .err e

/-- Result shape of `validateConfigObject`: `{ ok, config, issues }`. -/
structure ValidateConfigResult (Value : Type) where
  ok : Bool
  config : Value
  issues : List ConfigIssue
deriving Repr, DecidableEq

/-- Embedded from `validateConfigObject` (test-helpers.mocks.ts lines 328-332):
`(parsed) => ({ ok: true, config: parsed, issues: [] })`. -/
def validateConfigObject {Value : Type} (parsed : Value) : ValidateConfigResult Value :=
  { ok := true, config := parsed, issues := [] }

/-! ## Embedded-run mock (embedded from `hoisted.embeddedRunMock` and
`vi.mock("../agents/pi-embedded.js", ...)`) -/

/-- The mutable mock state (test-helpers.mocks.ts lines 64-69):
`activeIds: Set<string>`, `abortCalls: string[]`, `waitCalls: string[]`,
`waitResults: Map<string, boolean>`.  The set and the map are modelled as
lists queried by membership / first-key lookup. -/
structure EmbeddedRunMock where
  activeIds : List String
  abortCalls : List String
  waitCalls : List String
  waitResults : List (String × Bool)
deriving Repr, DecidableEq

/-- `embeddedRunMock.waitResults.get(sessionId)` — `Map.get`, first matching key. -/
def EmbeddedRunMock.waitResultsGet (m : EmbeddedRunMock) (sessionId : String) : Option Bool :=
  m.waitResults.lookup sessionId

/-- Embedded from the mocked `isEmbeddedPiRunActive` (line 344):
`(sessionId) => embeddedRunMock.activeIds.has(sessionId)`. -/
def isEmbeddedPiRunActive (m : EmbeddedRunMock) (sessionId : String) : Bool :=
  m.activeIds.contains sessionId

/-- Embedded from the mocked `abortEmbeddedPiRun` (lines 345-348):
pushes `sessionId` onto `abortCalls` and returns `activeIds.has(sessionId)`.
The pair is (state after the call, returned boolean). -/
def abortEmbeddedPiRun (m : EmbeddedRunMock) (sessionId : String) :
    EmbeddedRunMock × Bool :=
  ({ m with abortCalls := m.abortCalls ++ [sessionId] },
   m.activeIds.contains sessionId)

/-- Embedded from the mocked `waitForEmbeddedPiRunEnd` (lines 349-352):
pushes `sessionId` onto `waitCalls` and returns
`embeddedRunMock.waitResults.get(sessionId) ?? true`.
The pair is (state after the call, resolved boolean). -/
def waitForEmbeddedPiRunEnd (m : EmbeddedRunMock) (sessionId : String) :
    EmbeddedRunMock × Bool :=
  ({ m with waitCalls := m.waitCalls ++ [sessionId] },
   (m.waitResultsGet sessionId).getD true)

/-! ## Config file snapshot / write (embedded from `readConfigFileSnapshot`
and `writeConfigFile` in `vi.mock("../config/config.js", ...)`)

The filesystem is modelled as a partial map from paths to file contents
(`String → Option String`); `fs.access`/`fs.readFile` succeed exactly when
the path is mapped.  `JSON.parse`, `JSON.stringify(·)`,
`JSON.stringify(·, null, 2)` and the sha-256 hex digest are external
collaborators abstracted as parameters `jsonParse`, `jsonStringify`,
`jsonStringify2` and `sha256hex`. -/

/-- The parts of `testState` the config snapshot code reads
(test-helpers.mocks.ts lines 105-106): `legacyIssues` and `legacyParsed`.
`legacyParsed ?? {}` is modelled with an `Option` and `getD`. -/
structure ConfigTestState (Value : Type) where
  legacyIssues : List ConfigIssue
  legacyParsed : Option Value
deriving Repr, DecidableEq

/-- The snapshot shape returned by `readConfigFileSnapshot`:
`{ path, exists, raw, parsed, valid, config, hash, issues, legacyIssues }`
(`exists` is a Lean keyword, hence `exists'`). -/
structure ConfigSnapshot (Value : Type) where
  path : String
  exists' : Bool
  raw : Option String
  parsed : Value
  valid : Bool
  config : Value
  hash : String
  issues : List ConfigIssue
  legacyIssues : List ConfigIssue
deriving Repr, DecidableEq

/-- Embedded from `hashConfigRaw` (lines 173-177):
sha-256 hex digest of `raw ?? ""`. -/
def hashConfigRaw (sha256hex : String → String) (raw : Option String) : String :=
  sha256hex (raw.getD "")

/-- Embedded from `readConfigFileSnapshot` (lines 179-240).  Branches, in
source order: the legacy-issues branch (`testState.legacyIssues.length > 0`),
the missing-file branch (`fs.access` fails), the successful read+parse
branch, and the catch-all branch (`JSON.parse` threw).  `emptyObj` stands
for the literal `{}`. -/
def readConfigFileSnapshot {Value : Type}
    (jsonParse : String → Except String Value) (jsonStringify : Value → String)
    (sha256hex : String → String) (emptyObj : Value) (configPath : String)
    (st : ConfigTestState Value) (fs : String → Option String) :
    ConfigSnapshot Value :=
  if st.legacyIssues.length > 0 then
    let raw := jsonStringify (st.legacyParsed.getD emptyObj)
    { path := configPath
      exists' := true
      raw := some raw
      parsed := st.legacyParsed.getD emptyObj
      valid := false
      config := emptyObj
      hash := hashConfigRaw sha256hex (some raw)
      issues := st.legacyIssues.map (fun issue => { path := issue.path, message := issue.message })
      legacyIssues := st.legacyIssues }
  else
    match fs configPath with
    | none =>
      { path := configPath
        exists' := false
        raw := none
        parsed := emptyObj
        valid := true
        config := emptyObj
        hash := hashConfigRaw sha256hex none
        issues := []
        legacyIssues := [] }
    | some raw =>
      match jsonParse raw with
      | .ok parsed =>
        { path := configPath
          exists' := true
          raw := some raw
          parsed := parsed
          valid := true
          config := parsed
          hash := hashConfigRaw sha256hex (some raw)
          issues := []
          legacyIssues := [] }
      | .error err =>
        { path := configPath
          exists' := true
          raw := none
          parsed := emptyObj
          valid := false
          config := emptyObj
          hash := hashConfigRaw sha256hex none
          issues := [{ path := "", message := "read failed: " ++ err }]
          legacyIssues := [] }

/-- Embedded from `writeConfigFile` (lines 242-247): serializes `cfg` with
`JSON.stringify(cfg, null, 2).trimEnd().concat("\n")` and writes it at the
config path, returning the updated filesystem (the `mkdir -p` of the parent
directory is subsumed by the map model). -/
def writeConfigFile {Value : Type} (jsonStringify2 : Value → String)
    (configPath : String) (cfg : Value) (fs : String → Option String) :
    String → Option String :=
  fun p =>
    if p = configPath then some ((jsonStringify2 cfg).trimRight ++ "\n") else fs p

/-! ## Embedded Run Lifecycle (spec-modelled)

The real lifecycle lives in `src/agents/pi-embedded.js`, which is not among
the visible sources (only its mock is), so it is modelled from spec §3
("Embedded Run") and §4.6. -/

/-- Modelled from the spec: the status of an active Embedded Run — `running`
normally, or `aborting` once `abort` has signaled it to stop (cooperative:
the run observes the signal at its own checkpoints; `src/agents/pi-embedded.js`
is missing from the visible sources). -/
inductive RunStatus where
  | running
  | aborting
deriving Repr, DecidableEq

/-- Modelled from the spec: the Embedded Run Lifecycle state.  `active` maps
each sessionId with an active run to its status (zero-or-one active run per
sessionId); `ended` records, for runs that have ended, whether they ended
cleanly (`true`) or via abort (`false`), which is what `waitForEnd` reports
(`src/agents/pi-embedded.js` is missing from the visible sources). -/
structure RunLifecycle where
  active : List (String × RunStatus)
  ended : List (String × Bool)
deriving Repr, DecidableEq

/-- Replaces the value stored under key `s` (every occurrence) with `stt`. -/
def setStatus (stt : RunStatus) :
    List (String × RunStatus) → String → List (String × RunStatus)
  | [], _ => []
  | (k, v) :: rest, s =>
    if k = s then (k, stt) :: setStatus stt rest s
    else (k, v) :: setStatus stt rest s

/-- Removes every entry stored under key `s`. -/
def removeKey {β : Type} : List (String × β) → String → List (String × β)
  | [], _ => []
  | (k, v) :: rest, s =>
    if k = s then removeKey rest s else (k, v) :: removeKey rest s

/-- Modelled from the spec: `isActive(sessionId) → bool` (§4.6). -/
def RunLifecycle.isActive (st : RunLifecycle) (sessionId : String) : Bool :=
  (st.active.lookup sessionId).isSome

/-- Modelled from the spec: a run is created when agent work starts under a
sessionId (§3); starting is a no-op if a run is already active for it
(zero-or-one active run per sessionId), and supersedes any earlier run's
end record. -/
def RunLifecycle.startRun (st : RunLifecycle) (sessionId : String) : RunLifecycle :=
  if st.isActive sessionId then st
  else
    { active := (sessionId, RunStatus.running) :: st.active
      ended := removeKey st.ended sessionId }

/-- Modelled from the spec: `abort(sessionId) → bool` (§4.6) — `true` iff a
run was active and is now signaled to stop (its status becomes `aborting`);
a no-op returning `false` if no run is active for the sessionId. -/
def RunLifecycle.abort (st : RunLifecycle) (sessionId : String) :
    RunLifecycle × Bool :=
  match st.active.lookup sessionId with
  | some _ => ({ st with active := setStatus RunStatus.aborting st.active sessionId }, true)
  | none => (st, false)

/-- Modelled from the spec: the run for `sessionId` reaching its end — at a
cooperative checkpoint after an abort signal, or by normal completion.  The
run is destroyed (removed from the active set) and its end record notes
whether it ended cleanly (`true` iff it was still `running`, i.e. not
signaled to abort) (§3, §4.6). -/
def RunLifecycle.finishRun (st : RunLifecycle) (sessionId : String) : RunLifecycle :=
  match st.active.lookup sessionId with
  | some stt =>
    { active := removeKey st.active sessionId
      ended := (sessionId, stt == RunStatus.running) :: st.ended }
  | none => st

/-- Modelled from the spec: the value with which `waitForEnd(sessionId)`
resolves once no run is active for `sessionId` — `true` for normal
completion, `false` if the run ended via abort, and `true` (vacuously ended
cleanly) if no run is or was ever active for the sessionId (§4.6). -/
def RunLifecycle.waitForEndResult (st : RunLifecycle) (sessionId : String) : Bool :=
  (st.ended.lookup sessionId).getD true

/-! ## Node Bridge Server (spec-modelled)

The real server lives in `src/infra/bridge/server.js`, which is not among
the visible sources (only its mock is), so `invoke` and `close` are
modelled from spec §4.3, §4.5, §6 and §7.  The callback result shape is
embedded from `BridgeStartOpts.onRequest` (test-helpers.mocks.ts lines
28-34) and the node metadata from `BridgeClientInfo` (lines 8-18). -/

/-- Embedded from `BridgeClientInfo` (test-helpers.mocks.ts lines 8-18). -/
structure BridgeClientInfo where
  nodeId : String
  displayName : Option String
  platform : Option String
  version : Option String
  remoteIp : Option String
  deviceFamily : Option String
  modelIdentifier : Option String
  caps : Option (List String)
  commands : Option (List String)
deriving Repr, DecidableEq

/-- The `error` field shape of a failed request result:
`{ code, message, details? }` (`details?: unknown` is opaque, modelled as an
optional string). -/
structure BridgeErrorShape where
  code : String
  message : String
  details : Option String
deriving Repr, DecidableEq

/-- Embedded from `BridgeStartOpts.onRequest`'s return type (lines 28-34):
`{ ok: true, payloadJSON? } | { ok: false, error: { code, message, details? } }`
— exactly these two shapes, with no other fields. -/
inductive BridgeResult where
  | ok (payloadJSON : Option String)
  | err (error : BridgeErrorShape)
deriving Repr, DecidableEq

/-- Modelled from the spec: the failure taxonomy of §7
(`src/infra/bridge/server.js` is missing from the visible sources). -/
inductive BridgeFailure where
  | NodeNotConnected
  | NodeDisconnected
  | RequestTimeout
  | PairingRejected
  | InternalError
  | ServerClosing
deriving Repr, DecidableEq

/-- Modelled from the spec: the Bridge Server's mutable state — whether it
still accepts connections, whether the listening resource was released,
the Connection Registry (a nodeId maps to at most one live Connection,
hence a keyed list), and the RPC Correlator's outstanding-request table of
`(nodeId, request id)` pairs (§2, §4.1, §4.3, §4.5;
`src/infra/bridge/server.js` is missing from the visible sources). -/
structure BridgeServerState where
  accepting : Bool
  listenerReleased : Bool
  connections : List (String × BridgeClientInfo)
  outstanding : List (String × String)
deriving Repr, DecidableEq

/-- Modelled from the spec: the state of a freshly started server (`start`
in §4.5): accepting connections, listener live, no connected nodes, no
outstanding requests. -/
def freshBridgeServer : BridgeServerState :=
  { accepting := true, listenerReleased := false, connections := [], outstanding := [] }

/-- Modelled from the spec: what the far side does about an `invoke` sent to
a connected node — exactly one of: a correlated response arrives (carrying
the result exactly as the far side reported it), the timeout elapses, or
the Connection disconnects (§4.3). -/
inductive WireOutcome where
  | response (result : BridgeResult)
  | timeoutElapsed
  | disconnected
deriving Repr, DecidableEq

/-- Modelled from the spec: `invoke(nodeId, method, paramsJSON, timeout) → result`
(§4.3).  Fails with `NodeNotConnected` if no live Connection exists for
`nodeId` at call time; otherwise resolves or fails according to which of
the three wire outcomes occurs, resolving with the far side's reported
result unmodified (`src/infra/bridge/server.js` is missing from the
visible sources). -/
def invoke (st : BridgeServerState) (nodeId method paramsJSON : String)
    (timeoutMs : Nat) (outcome : WireOutcome) : Except BridgeFailure BridgeResult :=
  if (st.connections.lookup nodeId).isNone then
    .error BridgeFailure.NodeNotConnected
  else
    match outcome with
    | .response result => .ok result
    | .timeoutElapsed => .error BridgeFailure.RequestTimeout
    | .disconnected => .error BridgeFailure.NodeDisconnected

/-- The externally visible effects of one `close()` call: the nodes for
which `onDisconnected` fired and the outstanding `invoke` entries failed
with `ServerClosing`. -/
structure CloseEffects where
  disconnectedNodes : List BridgeClientInfo
  failedInvokes : List (String × String)
deriving Repr, DecidableEq

/-- Modelled from the spec: `close()` (§4.5) — stop accepting new
connections, fail all outstanding `invoke` calls with `ServerClosing`, fire
`onDisconnected` for every currently connected node, then release the
listening resource; guaranteed to complete exactly once even if called
repeatedly, so a call after the listener was already released is a no-op
with no effects (`src/infra/bridge/server.js` is missing from the visible
sources). -/
def close (st : BridgeServerState) : BridgeServerState × CloseEffects :=
  if st.listenerReleased then
    (st, { disconnectedNodes := [], failedInvokes := [] })
  else
    ({ accepting := false, listenerReleased := true, connections := [], outstanding := [] },
     { disconnectedNodes := st.connections.map (fun p => p.2),
       failedInvokes := st.outstanding })

/-! ## Basic lemmas about keyed lists -/

/-- Looking up a key at the head of a keyed list. -/
theorem lookup_cons_self {β : Type} (k : String) (v : β) (rest : List (String × β)) :
    List.lookup k ((k, v) :: rest) = some v := by
  simp [List.lookup]

/-- Looking up past a head entry with a different key. -/
theorem lookup_cons_ne {β : Type} {k s : String} (v : β) (rest : List (String × β))
    (h : ¬ k = s) :
    List.lookup s ((k, v) :: rest) = List.lookup s rest := by
  have hb : (s == k) = false := beq_eq_false_iff_ne.mpr (Ne.symm h)
  simp [List.lookup, hb]

/-- After `removeKey`, the removed key is absent. -/
theorem lookup_removeKey {β : Type} (l : List (String × β)) (s : String) :
    (removeKey l s).lookup s = none := by
  induction l with
  | nil => rfl
  | cons p rest ih =>
    obtain ⟨k, v⟩ := p
    by_cases h : k = s
    · simpa [removeKey, h] using ih
    · rw [removeKey, if_neg h, lookup_cons_ne v _ h]
      exact ih

/-- `setStatus` rewrites exactly the entries stored under the given key. -/
theorem lookup_setStatus (stt : RunStatus) (l : List (String × RunStatus)) (s : String) :
    (setStatus stt l s).lookup s = (l.lookup s).map (fun _ => stt) := by
  induction l with
  | nil => rfl
  | cons p rest ih =>
    obtain ⟨k, v⟩ := p
    by_cases h : k = s
    · subst h
      simp [setStatus, lookup_cons_self]
    · rw [setStatus, if_neg h]
      rw [lookup_cons_ne v _ h, lookup_cons_ne (β := RunStatus) v _ h]
      exact ih

/-- A helper for several lifecycle facts: whenever the run for a sessionId
ends — by completion or by abort — it is removed from the active set. -/
theorem finishRun_isActive_false (st : RunLifecycle) (sessionId : String) :
    (st.finishRun sessionId).isActive sessionId = false := by
  cases hl : st.active.lookup sessionId with
  | none => simp [RunLifecycle.finishRun, hl, RunLifecycle.isActive]
  | some stt => simp [RunLifecycle.finishRun, hl, RunLifecycle.isActive, lookup_removeKey]

/-- Claim C2: for every lifecycle state in which a run is active for
sessionId "s1", `abort "s1"` returns `true`, and once the aborted run ends
at its cooperative checkpoint, `waitForEnd "s1"` resolves with `false`
(ended via abort, not clean completion). -/
theorem abort_active_waitForEnd_false (st : RunLifecycle)
    (h : st.isActive "s1" = true) :
    (st.abort "s1").2 = true
    ∧ (((st.abort "s1").1.finishRun "s1").waitForEndResult "s1") = false := by
  simp only [RunLifecycle.isActive, Option.isSome_iff_exists] at h
  obtain ⟨stt, hl⟩ := h
  have habort : st.abort "s1"
      = ({ st with active := setStatus RunStatus.aborting st.active "s1" }, true) := by
    simp [RunLifecycle.abort, hl]
  have hl2 : (setStatus RunStatus.aborting st.active "s1").lookup "s1"
      = some RunStatus.aborting := by
    rw [lookup_setStatus, hl]
    rfl
  refine ⟨by rw [habort], ?_⟩
  rw [habort]
  simp [RunLifecycle.finishRun, hl2, RunLifecycle.waitForEndResult, lookup_cons_self]

/-- Claim C2 witness: with a single running run for "s1", the abort returns
`true` and the subsequent wait result is `false`. -/
theorem abort_active_waitForEnd_false_witness :
    (RunLifecycle.mk [("s1", RunStatus.running)] []).isActive "s1" = true
    ∧ ((RunLifecycle.mk [("s1", RunStatus.running)] []).abort "s1").2 = true
    ∧ ((((RunLifecycle.mk [("s1", RunStatus.running)] []).abort "s1").1.finishRun
        "s1").waitForEndResult "s1") = false := by
  refine ⟨by decide, ?_, ?_⟩
  · exact (abort_active_waitForEnd_false (RunLifecycle.mk [("s1", RunStatus.running)] [])
      (by decide)).1
  · exact (abort_active_waitForEnd_false (RunLifecycle.mk [("s1", RunStatus.running)] [])
      (by decide)).2

/-- Claim C3: for every mock state with no recorded wait result for the
sessionId — the mock's representation of a sessionId for which no run is or
was ever active — `waitForEmbeddedPiRunEnd` resolves (immediately, it never
suspends) with `true`: absence is treated as vacuously ended cleanly. -/
theorem waitForEnd_never_active_true (m : EmbeddedRunMock) (sessionId : String)
    (h : m.waitResultsGet sessionId = none) :
    (waitForEmbeddedPiRunEnd m sessionId).2 = true := by
  simp [waitForEmbeddedPiRunEnd, h]

/-- Claim C3 witness: on the fresh mock state (no run ever active),
`waitForEmbeddedPiRunEnd "s1"` resolves with `true`. -/
theorem waitForEnd_never_active_true_witness :
    (EmbeddedRunMock.mk [] [] [] []).waitResultsGet "s1" = none
    ∧ (waitForEmbeddedPiRunEnd (EmbeddedRunMock.mk [] [] [] []) "s1").2 = true :=
  ⟨rfl, waitForEnd_never_active_true (EmbeddedRunMock.mk [] [] [] []) "s1" rfl⟩

/-- Claim C4: for every mock state with no active run for the sessionId,
`abortEmbeddedPiRun` returns `false` and leaves the lifecycle-observable
state — the active set and the wait results, hence every `isActive` and
`waitForEnd` outcome — unchanged; and in general `abortEmbeddedPiRun`
returns `true` iff a run is active for that sessionId at call time. -/
theorem abort_inactive_noop (m : EmbeddedRunMock) (sessionId : String)
    (h : isEmbeddedPiRunActive m sessionId = false) :
    (abortEmbeddedPiRun m sessionId).2 = false
    ∧ (abortEmbeddedPiRun m sessionId).1.activeIds = m.activeIds
    ∧ (abortEmbeddedPiRun m sessionId).1.waitResults = m.waitResults
    ∧ (∀ t, isEmbeddedPiRunActive (abortEmbeddedPiRun m sessionId).1 t
        = isEmbeddedPiRunActive m t)
    ∧ (∀ t, (abortEmbeddedPiRun m sessionId).1.waitResultsGet t = m.waitResultsGet t)
    ∧ (∀ (m' : EmbeddedRunMock) (s' : String),
        ((abortEmbeddedPiRun m' s').2 = true ↔ isEmbeddedPiRunActive m' s' = true)) := by
  refine ⟨h, rfl, rfl, fun t => rfl, fun t => rfl, fun m' s' => Iff.rfl⟩

/-- Claim C4 witness: on the fresh mock state, aborting the inactive
session "s1" returns `false` and changes nothing the lifecycle exposes. -/
theorem abort_inactive_noop_witness :
    isEmbeddedPiRunActive (EmbeddedRunMock.mk [] [] [] []) "s1" = false
    ∧ ((abortEmbeddedPiRun (EmbeddedRunMock.mk [] [] [] []) "s1").2 = false
      ∧ (abortEmbeddedPiRun (EmbeddedRunMock.mk [] [] [] []) "s1").1.activeIds
          = (EmbeddedRunMock.mk [] [] [] []).activeIds
      ∧ (abortEmbeddedPiRun (EmbeddedRunMock.mk [] [] [] []) "s1").1.waitResults
          = (EmbeddedRunMock.mk [] [] [] []).waitResults
      ∧ (∀ t, isEmbeddedPiRunActive (abortEmbeddedPiRun (EmbeddedRunMock.mk [] [] [] []) "s1").1 t
          = isEmbeddedPiRunActive (EmbeddedRunMock.mk [] [] [] []) t)
      ∧ (∀ t, (abortEmbeddedPiRun (EmbeddedRunMock.mk [] [] [] []) "s1").1.waitResultsGet t
          = (EmbeddedRunMock.mk [] [] [] []).waitResultsGet t)
      ∧ (∀ (m' : EmbeddedRunMock) (s' : String),
          ((abortEmbeddedPiRun m' s').2 = true ↔ isEmbeddedPiRunActive m' s' = true))) :=
  ⟨rfl, abort_inactive_noop (EmbeddedRunMock.mk [] [] [] []) "s1" rfl⟩

/-- Claim C5: for every lifecycle state and sessionId, a run that ends —
whether by completion or by abort, `finishRun` covering both — is removed
from the active set; in particular, after `abort` has returned `true` and
the run has ended, `isActive` returns `false`. -/
theorem run_removed_when_ended (st : RunLifecycle) (sessionId : String) :
    (st.finishRun sessionId).isActive sessionId = false
    ∧ ((st.abort sessionId).2 = true →
        ((st.abort sessionId).1.finishRun sessionId).isActive sessionId = false) :=
  ⟨finishRun_isActive_false st sessionId,
   fun _ => finishRun_isActive_false (st.abort sessionId).1 sessionId⟩

/-- Claim C5 witness: with a single running run for "s1", ending it (or
aborting and then ending it) leaves "s1" inactive. -/
theorem run_removed_when_ended_witness :
    ((RunLifecycle.mk [("s1", RunStatus.running)] []).finishRun "s1").isActive "s1" = false
    ∧ (((RunLifecycle.mk [("s1", RunStatus.running)] []).abort "s1").2 = true →
        (((RunLifecycle.mk [("s1", RunStatus.running)] []).abort "s1").1.finishRun
          "s1").isActive "s1" = false) :=
  run_removed_when_ended (RunLifecycle.mk [("s1", RunStatus.running)] []) "s1"

/-- Claim C1: for every server state, call arguments and wire outcome, if no
live Connection exists for the nodeId at call time (in particular on a
fresh server where it was never connected), `invoke` fails immediately with
`NodeNotConnected` and never resolves with a success result. -/
theorem invoke_nodeNotConnected (st : BridgeServerState)
    (nodeId method paramsJSON : String) (timeoutMs : Nat) (outcome : WireOutcome)
    (h : st.connections.lookup nodeId = none) :
    invoke st nodeId method paramsJSON timeoutMs outcome
        = Except.error BridgeFailure.NodeNotConnected
    ∧ ∀ r, invoke st nodeId method paramsJSON timeoutMs outcome ≠ Except.ok r := by
  refine ⟨by simp [invoke, h], fun r => by simp [invoke, h]⟩

/-- Claim C1 witness: on a freshly started server, "N2" was never connected,
so `invoke` fails with `NodeNotConnected` even though a success response
was on offer from the wire-outcome oracle. -/
theorem invoke_nodeNotConnected_witness :
    freshBridgeServer.connections.lookup "N2" = none
    ∧ invoke freshBridgeServer "N2" "ping" "\x7b\x7d" 1000
        (WireOutcome.response (BridgeResult.ok (some "\x7b\x7d")))
        = Except.error BridgeFailure.NodeNotConnected :=
  ⟨rfl,
   (invoke_nodeNotConnected freshBridgeServer "N2" "ping" "\x7b\x7d" 1000
     (WireOutcome.response (BridgeResult.ok (some "\x7b\x7d"))) rfl).1⟩

/-- Claim C6: `close` is idempotent — for every server state, closing twice
produces the same end state as closing once, and the second call performs
no effects (fires no `onDisconnected`, fails no `invoke`); every call
completes, `close` being a total function of the state. -/
theorem close_idempotent (st : BridgeServerState) :
    (close (close st).1).1 = (close st).1
    ∧ (close (close st).1).2 = { disconnectedNodes := [], failedInvokes := [] } := by
  cases h : st.listenerReleased
  · constructor <;> simp [close, h]
  · constructor <;> simp [close, h]

/-- Claim C7: every successful `invoke` resolves with the far side's
reported result, unmodified — a value of exactly the `onRequest` result
shape: either `ok` with an optional `payloadJSON`, or `err` with an error
of shape `{ code, message, details? }`, and nothing else. -/
theorem invoke_result_shape (st : BridgeServerState)
    (nodeId method paramsJSON : String) (timeoutMs : Nat) (outcome : WireOutcome)
    (res : BridgeResult)
    (h : invoke st nodeId method paramsJSON timeoutMs outcome = Except.ok res) :
    outcome = WireOutcome.response res
    ∧ ((∃ p, res = BridgeResult.ok p)
      ∨ (∃ e, res = BridgeResult.err e)) := by
  constructor
  · cases hc : (st.connections.lookup nodeId).isNone with
    | true => simp [invoke, hc] at h
    | false =>
      cases outcome with
      | response r =>
        simp [invoke, hc] at h
        rw [h]
      | timeoutElapsed => simp [invoke, hc] at h
      | disconnected => simp [invoke, hc] at h
  · cases res with
    | ok p => exact Or.inl ⟨p, rfl⟩
    | err e => exact Or.inr ⟨e, rfl⟩

/-- A connected node used by the bridge witnesses. -/
def sampleNode : BridgeClientInfo :=
  { nodeId := "N1", displayName := none, platform := none, version := none,
    remoteIp := none, deviceFamily := none, modelIdentifier := none,
    caps := none, commands := none }

/-- A server state with the single connected node "N1". -/
def sampleServer : BridgeServerState :=
  { accepting := true, listenerReleased := false,
    connections := [("N1", sampleNode)], outstanding := [] }

/-- Claim C7 witness: a successful `invoke` of "ping" on the connected node
"N1" resolves with exactly the reported `ok` result. -/
theorem invoke_result_shape_witness :
    invoke sampleServer "N1" "ping" "\x7b\x7d" 1000
        (WireOutcome.response (BridgeResult.ok (some "\x7b\"pong\":true\x7d")))
        = Except.ok (BridgeResult.ok (some "\x7b\"pong\":true\x7d"))
    ∧ ((WireOutcome.response (BridgeResult.ok (some "\x7b\"pong\":true\x7d"))
          = WireOutcome.response (BridgeResult.ok (some "\x7b\"pong\":true\x7d")))
      ∧ ((∃ p, BridgeResult.ok (some "\x7b\"pong\":true\x7d") = BridgeResult.ok p)
        ∨ (∃ e, BridgeResult.ok (some "\x7b\"pong\":true\x7d") = BridgeResult.err e))) := by
  refine ⟨rfl, ?_⟩
  exact invoke_result_shape sampleServer "N1" "ping" "\x7b\x7d" 1000
    (WireOutcome.response (BridgeResult.ok (some "\x7b\"pong\":true\x7d")))
    (BridgeResult.ok (some "\x7b\"pong\":true\x7d")) rfl

/-- Claim C8: `validateConfigObject` is vacuous — for every input value it
returns `ok := true` with an empty issue list (echoing the input as the
config), so it never rejects and never reports an issue. -/
theorem validateConfigObject_vacuous {Value : Type} (parsed : Value) :
    (validateConfigObject parsed).ok = true
    ∧ (validateConfigObject parsed).issues = []
    ∧ validateConfigObject parsed
        = { ok := true, config := parsed, issues := [] } :=
  ⟨rfl, rfl, rfl⟩

/-- Claim C9: `parseConfigJson5` is total (a plain function of its input)
and never throws: it returns `ok parsed` exactly when `JSON.parse` succeeds
on the input, and otherwise returns `err` carrying the textual description
of the parse failure. -/
theorem parseConfigJson5_ok_iff {Value : Type}
    (jsonParse : String → Except String Value) (raw : String) :
    (∀ v, parseConfigJson5 jsonParse raw = ParseConfigResult.ok v
        ↔ jsonParse raw = Except.ok v)
    ∧ (∀ e, jsonParse raw = Except.error e →
        parseConfigJson5 jsonParse raw = ParseConfigResult.err e) := by
  constructor
  · intro v
    cases hj : jsonParse raw with
    | ok w => simp [parseConfigJson5, hj]
    | error e => simp [parseConfigJson5, hj]
  · intro e he
    simp [parseConfigJson5, he]

/-- Claim C9 witness: with a parser accepting exactly the string "0", the
wrapper returns `ok` on "0" and `err` with the failure text on "x". -/
theorem parseConfigJson5_ok_iff_witness :
    parseConfigJson5 (fun s => if s = "0" then Except.ok (0 : Nat)
      else Except.error "SyntaxError: bad") "0" = ParseConfigResult.ok 0
    ∧ parseConfigJson5 (fun s => if s = "0" then Except.ok (0 : Nat)
      else Except.error "SyntaxError: bad") "x" = ParseConfigResult.err "SyntaxError: bad" :=
  ⟨((parseConfigJson5_ok_iff (fun s => if s = "0" then Except.ok (0 : Nat)
      else Except.error "SyntaxError: bad") "0").1 0).mpr rfl,
   (parseConfigJson5_ok_iff (fun s => if s = "0" then Except.ok (0 : Nat)
      else Except.error "SyntaxError: bad") "x").2 "SyntaxError: bad" rfl⟩

/-- Claim C10: config write/read round-trip.  For every config value whose
serialized form parses back to itself (JSON-serializability) and every
state with no legacy issues configured, `writeConfigFile` followed by
`readConfigFileSnapshot` yields the snapshot with `exists := true`,
`valid := true`, empty issues, and `parsed` and `config` both equal to the
written value. -/
theorem writeConfig_read_roundtrip {Value : Type}
    (jsonParse : String → Except String Value)
    (jsonStringify jsonStringify2 : Value → String)
    (sha256hex : String → String) (emptyObj : Value) (configPath : String)
    (st : ConfigTestState Value) (fs : String → Option String) (cfg : Value)
    (hleg : st.legacyIssues = [])
    (hrt : jsonParse ((jsonStringify2 cfg).trimRight ++ "\n") = Except.ok cfg) :
    readConfigFileSnapshot jsonParse jsonStringify sha256hex emptyObj configPath st
        (writeConfigFile jsonStringify2 configPath cfg fs)
      = { path := configPath
          exists' := true
          raw := some ((jsonStringify2 cfg).trimRight ++ "\n")
          parsed := cfg
          valid := true
          config := cfg
          hash := hashConfigRaw sha256hex (some ((jsonStringify2 cfg).trimRight ++ "\n"))
          issues := []
          legacyIssues := [] } := by
  have hfs : writeConfigFile jsonStringify2 configPath cfg fs configPath
      = some ((jsonStringify2 cfg).trimRight ++ "\n") := by
    simp [writeConfigFile]
  simp [readConfigFileSnapshot, hleg, hfs, hrt]

/-- Claim C10 witness: a concrete round-trip — value `0`, serializer
constantly `"0"`, a parser that accepts the written text back as `0` — on
an empty filesystem, with no legacy issues, yields the valid snapshot with
`parsed = config = 0`. -/
theorem writeConfig_read_roundtrip_witness :
    (ConfigTestState.mk ([] : List ConfigIssue) (none : Option Nat)).legacyIssues = []
    ∧ (fun _ : String => (Except.ok 0 : Except String Nat))
        (((fun _ : Nat => "0") 0).trimRight ++ "\n") = Except.ok 0
    ∧ readConfigFileSnapshot (fun _ : String => (Except.ok 0 : Except String Nat))
        (fun _ : Nat => "0") (fun _ : String => "h") 7 "/tmp/clawdbot.json"
        (ConfigTestState.mk ([] : List ConfigIssue) (none : Option Nat))
        (writeConfigFile (fun _ : Nat => "0") "/tmp/clawdbot.json" 0 (fun _ => none))
      = { path := "/tmp/clawdbot.json"
          exists' := true
          raw := some (((fun _ : Nat => "0") 0).trimRight ++ "\n")
          parsed := 0
          valid := true
          config := 0
          hash := hashConfigRaw (fun _ : String => "h")
            (some (((fun _ : Nat => "0") 0).trimRight ++ "\n"))
          issues := []
          legacyIssues := [] } :=
  ⟨rfl, rfl,
   writeConfig_read_roundtrip (fun _ : String => (Except.ok 0 : Except String Nat))
     (fun _ : Nat => "0") (fun _ : Nat => "0") (fun _ : String => "h") 7
     "/tmp/clawdbot.json" (ConfigTestState.mk [] none) (fun _ => none) 0 rfl rfl⟩

end Clawdbot
